import Mathlib

/-!
Formal model of the episode-flow podcast guest scheduling application.

The development embeds, as pure Lean functions, the parts of the
repository that govern the invitation and booking lifecycle:

* the persisted schema (`supabase/migrations/...`): tables `episodes`,
  `episode_guests`, `profiles`;
* the serverless booking endpoint
  (`supabase/functions/guest-booking/index.ts`): the `handler` function
  together with the HTML producers `createNotFoundPage` and
  `createBookingPage`;
* the host dashboard read model
  (`src/components/dashboard/Dashboard.tsx`): `fetchEpisodes`;
* the invitation dispatch: the `send-invitation` edge function (the
  second document embedded in `src/components/ui/time-picker.tsx`) and
  its caller `sendInvitations`
  (`src/components/dashboard/CreateEpisodeDialog.tsx`).

The backing store is modelled as in-memory lists of rows; each HTTP
request is a pure state transformer `DB → Response × DB`.  The store
itself is total in this embedding: the branch of the source handler that
converts a store write failure into an HTTP 500 is therefore
unreachable in the model (it depends only on the external database).
-/

namespace EpisodeFlow

/-- Row of the `profiles` table (columns used by the booking page join:
`user_id`, `first_name`, `last_name`; the name columns are nullable). -/
structure Profile where
  user_id : String
  first_name : Option String
  last_name : Option String
deriving Repr, DecidableEq

/-- Row of the `episodes` table (migration `20250816023454`): `id`,
`user_id`, `title`, `description`, `date DATE`, `time_slots TEXT[]`.
Dates are kept as their ISO `YYYY-MM-DD` text, on which the SQL `DATE`
order coincides with lexicographic character order. -/
structure Episode where
  id : String
  user_id : String
  title : String
  description : String
  date : String
  time_slots : List String
deriving Repr, DecidableEq

/-- Row of the `episode_guests` table (migration `20250816023454`, plus
the `selected_time_slot` column added by migration `20250818023709`).
The `status` column is declared `TEXT DEFAULT pending` with no CHECK
constraint, so it holds an arbitrary string. -/
structure Guest where
  id : String
  episode_id : String
  name : String
  email : String
  status : String
  selected_time_slot : Option String
  rejection_note : Option String
deriving Repr, DecidableEq

/-- The relational store: the three tables the booking lifecycle touches. -/
structure DB where
  episodes : List Episode
  guests : List Guest
  profiles : List Profile
deriving Repr, DecidableEq

/-- JavaScript truthiness of a nullable string: `null`/`undefined` and
the empty string are falsy, every other string is truthy. -/
def strTruthy : Option String → Bool
  | some s => s ≠ ""
  | none => false

/-- JavaScript string interpolation of a nullable string: `null` prints
as the four characters `null`. -/
def jsShow : Option String → String
  | some s => s
  | none => "null"

/-- `String.prototype.split` with a single-character separator, on the
character list.  As in JavaScript, the result is never empty:
`"".split(sep)` is `[""]`. -/
def splitChars (sep : Char) : List Char → List (List Char)
  | [] => [[]]
  | c :: cs =>
    let rest := splitChars sep cs
    if c = sep then [] :: rest
    else
      match rest with
      | r :: rs => (c :: r) :: rs
      | [] => [[c]]

/-- JavaScript `s.split(sep)` for a one-character separator. -/
def jsSplit (s : String) (sep : Char) : List String :=
  (splitChars sep s.data).map (fun cs => String.mk cs)

/-- The guest id extraction of the handler:
`url.pathname.split(slash).pop()`.  `split` never yields an empty array,
so `pop` always yields a string (possibly `""`). -/
def lastSegment (pathname : String) : String :=
  (jsSplit pathname '/').getLastD ""

/-- Lexicographic order on character lists; `dateLe` below uses it to
model the SQL `ORDER BY date ASC` on ISO-formatted dates. -/
def charListLe : List Char → List Char → Bool
  | [], _ => true
  | _ :: _, [] => false
  | a :: as, b :: bs =>
    if a < b then true
    else if b < a then false
    else charListLe as bs

/-- Order on `date` column values used by `ORDER BY date ASC`. -/
def dateLe (a b : String) : Bool :=
  charListLe a.data b.data

/-- Source function `createNotFoundPage`: the generic page returned for
an unresolvable guest id. -/
def createNotFoundPage : String :=
  "\n"
    ++ "    <!DOCTYPE html>\n"
    ++ "    <html>\n"
    ++ "    <head>\n"
    ++ "      <title>Invitation Not Found</title>\n"
    ++ "      <meta name=\"viewport\" content=\"width=device-width, initial-scale=1\">\n"
    ++ "      <style>\n"
    ++ "        body \x7b font-family: Arial, sans-serif; max-width: 600px; margin: 50px auto; padding: 20px; text-align: center; \x7d\n"
    ++ "        .error \x7b color: #dc2626; \x7d\n"
    ++ "      </style>\n"
    ++ "    </head>\n"
    ++ "    <body>\n"
    ++ "      <h1 class=\"error\">Invitation Not Found</h1>\n"
    ++ "      <p>The invitation link you used is invalid or has expired.</p>\n"
    ++ "      <p>Please contact the podcast host for a new invitation.</p>\n"
    ++ "    </body>\n"
    ++ "    </html>\n"
    ++ "  "

/-- One rendered slot button: the body of the arrow function mapped over
`episode.time_slots` inside the pending branch of the booking page. -/
def timeSlotButton (slot : String) : String :=
  "\n"
    ++ "              <button class=\"time-slot\" data-slot=\"" ++ slot ++ "\">\n"
    ++ "                " ++ slot ++ "\n"
    ++ "              </button>\n"
    ++ "            "

/-- Branch of the booking page template rendered when
`guest.status === confirmed`; interpolates `guest.selected_time_slot`
(printing `null` when the column is NULL, as JavaScript does). -/
def confirmedSection (guest : Guest) : String :=
  "\n"
    ++ "          <div class=\"success\">\n"
    ++ "            <h3>✅ Confirmed!</h3>\n"
    ++ "            <p>You have confirmed your participation for: <strong>" ++ jsShow guest.selected_time_slot ++ "</strong></p>\n"
    ++ "            <p>Thank you! You\x27ll receive more details closer to the recording date.</p>\n"
    ++ "          </div>\n"
    ++ "        "

/-- Branch rendered when `guest.status === declined`; the note line is
emitted only when `guest.rejection_note` is truthy. -/
def declinedSection (guest : Guest) : String :=
  "\n"
    ++ "          <div class=\"success\">\n"
    ++ "            <h3>❌ Declined</h3>\n"
    ++ "            <p>You have declined this invitation. Thank you for letting us know.</p>\n"
    ++ "            " ++ (if strTruthy guest.rejection_note then "<p><strong>Note:</strong> " ++ jsShow guest.rejection_note ++ "</p>" else "") ++ "\n"
    ++ "          </div>\n"
    ++ "        "

/-- Branch rendered for every other status (in particular `pending`):
the slot-selection form, listing `episode.time_slots` in stored order. -/
def pendingSection (episode : Episode) : String :=
  "\n"
    ++ "          <div id=\"booking-form\">\n"
    ++ "            <h3>Choose Your Preferred Time Slot:</h3>\n"
    ++ "            \n"
    ++ "            " ++ String.join (episode.time_slots.map timeSlotButton) ++ "\n"
    ++ "\n"
    ++ "            <div style=\"margin-top: 30px;\">\n"
    ++ "              <button id=\"confirm-btn\" class=\"button\" disabled>\n"
    ++ "                Confirm Participation\n"
    ++ "              </button>\n"
    ++ "              <button id=\"decline-btn\" class=\"button decline-btn\">\n"
    ++ "                Decline Invitation\n"
    ++ "              </button>\n"
    ++ "            </div>\n"
    ++ "            \n"
    ++ "            <div id=\"decline-form\" style=\"display: none; margin-top: 20px; padding: 20px; background: #fef2f2; border-radius: 8px; border: 1px solid #fecaca;\">\n"
    ++ "              <h4>Please let us know why you can\x27t attend (optional):</h4>\n"
    ++ "              <textarea id=\"rejection-note\" placeholder=\"e.g., Scheduling conflict, not available that week...\" \n"
    ++ "                style=\"width: 100%; padding: 8px; margin: 10px 0; border-radius: 4px; border: 1px solid #d1d5db; min-height: 80px;\"></textarea>\n"
    ++ "              <div>\n"
    ++ "                <button id=\"confirm-decline-btn\" class=\"button decline-btn\">\n"
    ++ "                  Confirm Decline\n"
    ++ "                </button>\n"
    ++ "                <button id=\"cancel-decline-btn\" class=\"button\" style=\"background: #6b7280; margin-left: 10px;\">\n"
    ++ "                  Cancel\n"
    ++ "                </button>\n"
    ++ "              </div>\n"
    ++ "            </div>\n"
    ++ "          </div>\n"
    ++ "        "

/-- The status conditional of the booking page template. -/
def statusSection (guest : Guest) (episode : Episode) : String :=
  if guest.status == "confirmed" then confirmedSection guest
  else if guest.status == "declined" then declinedSection guest
  else pendingSection episode

/-- Host display name: first and last profile names joined when both are
truthy, the generic label otherwise
(`episode.profiles?.first_name && episode.profiles?.last_name`). -/
def hostName (profile : Option Profile) : String :=
  match profile with
  | some p =>
    if strTruthy p.first_name && strTruthy p.last_name then
      jsShow p.first_name ++ " " ++ jsShow p.last_name
    else "Your host"
  | none => "Your host"

/-- Source function `createBookingPage(guest)`.  The joined row is passed
as its components: the guest row, its `episodes` embed and the episode
`profiles` embed.  `fmtDate` stands for the runtime
`Date.toLocaleDateString` (locale `en-US`) rendering of `episode.date`. -/
def createBookingPage (fmtDate : String → String) (guest : Guest) (episode : Episode) (profile : Option Profile) : String :=
  "\n"
    ++ "    <!DOCTYPE html>\n"
    ++ "    <html>\n"
    ++ "    <head>\n"
    ++ "      <title>Podcast Booking - " ++ episode.title ++ "</title>\n"
    ++ "      <meta name=\"viewport\" content=\"width=device-width, initial-scale=1\">\n"
    ++ "      <style>\n"
    ++ "        body \x7b \n"
    ++ "          font-family: Arial, sans-serif; \n"
    ++ "          max-width: 600px; \n"
    ++ "          margin: 20px auto; \n"
    ++ "          padding: 20px; \n"
    ++ "          background: #f8f9fa;\n"
    ++ "        \x7d\n"
    ++ "        .container \x7b \n"
    ++ "          background: white; \n"
    ++ "          padding: 30px; \n"
    ++ "          border-radius: 12px; \n"
    ++ "          box-shadow: 0 2px 10px rgba(0,0,0,0.1);\n"
    ++ "        \x7d\n"
    ++ "        .header \x7b text-align: center; margin-bottom: 30px; \x7d\n"
    ++ "        .episode-info \x7b \n"
    ++ "          background: #f1f5f9; \n"
    ++ "          padding: 20px; \n"
    ++ "          border-radius: 8px; \n"
    ++ "          margin: 20px 0;\n"
    ++ "        \x7d\n"
    ++ "        .time-slot \x7b \n"
    ++ "          display: block; \n"
    ++ "          width: 100%; \n"
    ++ "          padding: 12px; \n"
    ++ "          margin: 8px 0; \n"
    ++ "          border: 2px solid #e2e8f0; \n"
    ++ "          border-radius: 6px; \n"
    ++ "          background: white; \n"
    ++ "          cursor: pointer; \n"
    ++ "          transition: all 0.2s;\n"
    ++ "        \x7d\n"
    ++ "        .time-slot:hover \x7b border-color: #2563eb; background: #eff6ff; \x7d\n"
    ++ "        .time-slot.selected \x7b border-color: #2563eb; background: #dbeafe; \x7d\n"
    ++ "        .button \x7b \n"
    ++ "          background: #2563eb; \n"
    ++ "          color: white; \n"
    ++ "          padding: 12px 24px; \n"
    ++ "          border: none; \n"
    ++ "          border-radius: 6px; \n"
    ++ "          cursor: pointer; \n"
    ++ "          font-size: 16px; \n"
    ++ "          width: 100%;\n"
    ++ "          margin: 10px 0;\n"
    ++ "        \x7d\n"
    ++ "        .button:hover \x7b background: #1d4ed8; \x7d\n"
    ++ "        .button:disabled \x7b background: #94a3b8; cursor: not-allowed; \x7d\n"
    ++ "        .decline-btn \x7b background: #dc2626; \x7d\n"
    ++ "        .decline-btn:hover \x7b background: #b91c1c; \x7d\n"
    ++ "        .success \x7b color: #059669; text-align: center; padding: 20px; \x7d\n"
    ++ "        .guest-name \x7b color: #2563eb; font-weight: bold; \x7d\n"
    ++ "      </style>\n"
    ++ "    </head>\n"
    ++ "    <body>\n"
    ++ "      <div class=\"container\">\n"
    ++ "        <div class=\"header\">\n"
    ++ "          <h1>🎙️ Podcast Invitation</h1>\n"
    ++ "          <p>Hello <span class=\"guest-name\">" ++ guest.name ++ "</span>!</p>\n"
    ++ "        </div>\n"
    ++ "\n"
    ++ "        <div class=\"episode-info\">\n"
    ++ "          <h2>" ++ episode.title ++ "</h2>\n"
    ++ "          <p><strong>Host:</strong> " ++ hostName profile ++ "</p>\n"
    ++ "          <p><strong>Date:</strong> " ++ fmtDate episode.date ++ "</p>\n"
    ++ "          <p><strong>Description:</strong> " ++ episode.description ++ "</p>\n"
    ++ "        </div>\n"
    ++ "\n"
    ++ "        " ++ statusSection guest episode ++ "\n"
    ++ "      </div>\n"
    ++ "\n"
    ++ "      <script>\n"
    ++ "        let selectedSlot = null;\n"
    ++ "        \n"
    ++ "        document.querySelectorAll(\x27.time-slot\x27).forEach(button => \x7b\n"
    ++ "          button.addEventListener(\x27click\x27, function() \x7b\n"
    ++ "            document.querySelectorAll(\x27.time-slot\x27).forEach(b => b.classList.remove(\x27selected\x27));\n"
    ++ "            this.classList.add(\x27selected\x27);\n"
    ++ "            selectedSlot = this.dataset.slot;\n"
    ++ "            document.getElementById(\x27confirm-btn\x27).disabled = false;\n"
    ++ "          \x7d);\n"
    ++ "        \x7d);\n"
    ++ "\n"
    ++ "        document.getElementById(\x27confirm-btn\x27)?.addEventListener(\x27click\x27, async function() \x7b\n"
    ++ "          if (!selectedSlot) return;\n"
    ++ "          \n"
    ++ "          this.disabled = true;\n"
    ++ "          this.textContent = \x27Confirming...\x27;\n"
    ++ "          \n"
    ++ "          try \x7b\n"
    ++ "            const response = await fetch(window.location.href, \x7b\n"
    ++ "              method: \x27POST\x27,\n"
    ++ "              headers: \x7b \x27Content-Type\x27: \x27application/json\x27 \x7d,\n"
    ++ "              body: JSON.stringify(\x7b selectedSlot, status: \x27confirmed\x27 \x7d)\n"
    ++ "            \x7d);\n"
    ++ "            \n"
    ++ "            if (response.ok) \x7b\n"
    ++ "              window.location.reload();\n"
    ++ "            \x7d else \x7b\n"
    ++ "              alert(\x27Failed to confirm. Please try again.\x27);\n"
    ++ "              this.disabled = false;\n"
    ++ "              this.textContent = \x27Confirm Participation\x27;\n"
    ++ "            \x7d\n"
    ++ "          \x7d catch (error) \x7b\n"
    ++ "            alert(\x27Failed to confirm. Please try again.\x27);\n"
    ++ "            this.disabled = false;\n"
    ++ "            this.textContent = \x27Confirm Participation\x27;\n"
    ++ "          \x7d\n"
    ++ "        \x7d);\n"
    ++ "\n"
    ++ "        document.getElementById(\x27decline-btn\x27)?.addEventListener(\x27click\x27, function() \x7b\n"
    ++ "          document.getElementById(\x27decline-form\x27).style.display = \x27block\x27;\n"
    ++ "          this.style.display = \x27none\x27;\n"
    ++ "        \x7d);\n"
    ++ "\n"
    ++ "        document.getElementById(\x27cancel-decline-btn\x27)?.addEventListener(\x27click\x27, function() \x7b\n"
    ++ "          document.getElementById(\x27decline-form\x27).style.display = \x27none\x27;\n"
    ++ "          document.getElementById(\x27decline-btn\x27).style.display = \x27block\x27;\n"
    ++ "          document.getElementById(\x27rejection-note\x27).value = \x27\x27;\n"
    ++ "        \x7d);\n"
    ++ "\n"
    ++ "        document.getElementById(\x27confirm-decline-btn\x27)?.addEventListener(\x27click\x27, async function() \x7b\n"
    ++ "          this.disabled = true;\n"
    ++ "          this.textContent = \x27Declining...\x27;\n"
    ++ "          \n"
    ++ "          const rejectionNote = document.getElementById(\x27rejection-note\x27).value.trim();\n"
    ++ "          \n"
    ++ "          try \x7b\n"
    ++ "            const response = await fetch(window.location.href, \x7b\n"
    ++ "              method: \x27POST\x27,\n"
    ++ "              headers: \x7b \x27Content-Type\x27: \x27application/json\x27 \x7d,\n"
    ++ "              body: JSON.stringify(\x7b \n"
    ++ "                status: \x27declined\x27,\n"
    ++ "                rejectionNote: rejectionNote || null\n"
    ++ "              \x7d)\n"
    ++ "            \x7d);\n"
    ++ "            \n"
    ++ "            if (response.ok) \x7b\n"
    ++ "              window.location.reload();\n"
    ++ "            \x7d else \x7b\n"
    ++ "              alert(\x27Failed to decline. Please try again.\x27);\n"
    ++ "              this.disabled = false;\n"
    ++ "              this.textContent = \x27Confirm Decline\x27;\n"
    ++ "            \x7d\n"
    ++ "          \x7d catch (error) \x7b\n"
    ++ "            alert(\x27Failed to decline. Please try again.\x27);\n"
    ++ "            this.disabled = false;\n"
    ++ "            this.textContent = \x27Confirm Decline\x27;\n"
    ++ "          \x7d\n"
    ++ "        \x7d);\n"
    ++ "      </script>\n"
    ++ "    </body>\n"
    ++ "    </html>\n"
    ++ "  "

/-- JSON body of a booking `POST` request, as destructured by the
handler: `const { selectedSlot, status, rejectionNote } = await req.json()`.
`none` models an absent (or `null`) field. -/
structure BookingBody where
  selectedSlot : Option String
  status : String
  rejectionNote : Option String
deriving Repr, DecidableEq

/-- The `updateData` object the handler sends to the store.  A `none`
`rejection_note` means the column is absent from the update (the stored
value is left untouched); `selected_time_slot` is always present. -/
structure UpdateData where
  status : String
  selected_time_slot : Option String
  rejection_note : Option String
deriving Repr, DecidableEq

/-- Construction of `updateData` in the `POST` branch of the handler:
`status` and `selected_time_slot := selectedSlot ?? null` always;
`rejection_note` only when `status === declined && rejectionNote`. -/
def mkUpdateData (b : BookingBody) : UpdateData :=
  { status := b.status
    selected_time_slot := b.selectedSlot
    rejection_note :=
      if b.status == "declined" && strTruthy b.rejectionNote then b.rejectionNote
      else none }

/-- Effect of a single-row SQL `UPDATE` carrying `u` on a row `g`:
columns present in the update are overwritten, absent columns keep
their stored value. -/
def applyUpdate (u : UpdateData) (g : Guest) : Guest :=
  { g with
    status := u.status
    selected_time_slot := u.selected_time_slot
    rejection_note :=
      match u.rejection_note with
      | some n => some n
      | none => g.rejection_note }

/-- `supabase.from(episode_guests).update(updateData).eq(id, guestId)`:
every row whose `id` matches is rewritten. -/
def updateGuests (gs : List Guest) (guestId : String) (u : UpdateData) : List Guest :=
  gs.map fun g => if g.id == guestId then applyUpdate u g else g

/-- `select ... eq(id, guestId).single()`: yields the row only when
exactly one row matches, an error (`none`) otherwise. -/
def selectSingle (gs : List Guest) (guestId : String) : Option Guest :=
  match gs.filter (fun g => g.id == guestId) with
  | [g] => some g
  | _ => none

/-- An incoming HTTP request, reduced to the fields the handler reads:
the method, the URL path, and the result of `await req.json()` (an
`Except` whose error carries the message of the exception a malformed
body raises). -/
structure Request where
  method : String
  pathname : String
  body : Except String BookingBody
deriving Repr

/-- An outgoing HTTP response.  As with the runtime `Response`
constructor, the status defaults to `200` when none is given. -/
structure Response where
  status : Nat := 200
  body : Option String := none
  contentType : Option String := none
deriving Repr, DecidableEq

/-- `JSON.stringify({ success: true })`. -/
def jsonSuccessBody : String := "\x7b\"success\":true\x7d"

/-- `JSON.stringify({ error: msg })` (for messages needing no JSON
escaping, which covers every message this model produces). -/
def jsonErrorBody (msg : String) : String := "\x7b\"error\":\"" ++ msg ++ "\"\x7d"

/-- The `guest-booking` edge function `handler`, as a pure transformer
of the store.  Branches, in source order: CORS preflight; empty guest id
(400); `GET` (joined fetch, not-found page on error, booking page
otherwise); `POST` (body parse, unconditional row update, success JSON;
a parse exception is caught and answered with a JSON 500); any other
method (405).  The embedded store is total, so the `if (error) throw`
branch after the update cannot fire; the 500 on the `GET` join models
the `TypeError` that `createBookingPage` would raise on a NULL embed. -/
def handler (fmtDate : String → String) (db : DB) (req : Request) : Response × DB :=
  if req.method == "OPTIONS" then
    ({ status := 200 }, db)
  else
    let guestId := lastSegment req.pathname
    if guestId == "" then
      ({ status := 400, body := some "Invalid guest id" }, db)
    else if req.method == "GET" then
      match selectSingle db.guests guestId with
      | none =>
        ({ body := some createNotFoundPage, contentType := some "text/html" }, db)
      | some guest =>
        match db.episodes.find? (fun e => e.id == guest.episode_id) with
        | none =>
          ({ status := 500
             body := some (jsonErrorBody "Cannot read properties of null")
             contentType := some "application/json" }, db)
        | some episode =>
          let profile := db.profiles.find? (fun p => p.user_id == episode.user_id)
          ({ body := some (createBookingPage fmtDate guest episode profile)
             contentType := some "text/html" }, db)
    else if req.method == "POST" then
      match req.body with
      | Except.error msg =>
        ({ status := 500, body := some (jsonErrorBody msg)
           contentType := some "application/json" }, db)
      | Except.ok b =>
        ({ body := some jsonSuccessBody, contentType := some "application/json" },
         { db with guests := updateGuests db.guests (lastSegment req.pathname) (mkUpdateData b) })
    else
      ({ status := 405, body := some "Method not allowed" }, db)

/-- An episode as the dashboard displays it: the row, its embedded
guest rows, and the three computed count fields. -/
structure AnnotatedEpisode where
  episode : Episode
  episode_guests : List Guest
  guest_count : Nat
  confirmed_guests : Nat
  pending_guests : Nat
deriving Repr, DecidableEq

/-- The dashboard `fetchEpisodes` query and post-processing: row level
security restricts the select to the episodes of the signed-in owner, the
store orders them by `date` ascending, the embed collects each
guest rows of the episode, and the map adds `guest_count`,
`confirmed_guests` and `pending_guests`. -/
def fetchEpisodes (db : DB) (owner : String) : List AnnotatedEpisode :=
  let owned := db.episodes.filter (fun e => e.user_id == owner)
  let ordered := owned.insertionSort (fun a b => dateLe a.date b.date = true)
  ordered.map fun e =>
    let gs := db.guests.filter (fun g => g.episode_id == e.id)
    { episode := e
      episode_guests := gs
      guest_count := gs.length
      confirmed_guests := (gs.filter (fun g => g.status == "confirmed")).length
      pending_guests := (gs.filter (fun g => g.status == "pending")).length }

/-- The `select(first_name, last_name)...single()` host profile lookup
of the `send-invitation` function; the source ignores the error object,
so a miss (or a duplicate) simply yields `null`. -/
def selectSingleProfile (ps : List Profile) (userId : String) : Option Profile :=
  match ps.filter (fun p => p.user_id == userId) with
  | [p] => some p
  | _ => none

/-- The `select(*).eq(id, episodeId).single()` episode lookup of the
`send-invitation` function. -/
def selectSingleEpisode (es : List Episode) (episodeId : String) : Option Episode :=
  match es.filter (fun e => e.id == episodeId) with
  | [e] => some e
  | _ => none

/-- The booking URL the `send-invitation` function embeds in the
invitation email. -/
def bookingUrl (guestId : String) : String :=
  "https://szqxqcqgpbhalhxwbryn.supabase.co/functions/v1/guest-booking/" ++ guestId

/-- One `resend.emails.send` payload as the `send-invitation` function
fills it (`sender` and `recipients` model the `from` and `to` fields,
reserved words here). -/
structure Email where
  sender : String
  recipients : List String
  subject : String
  html : String
deriving Repr, DecidableEq

/-- Subject line of the invitation email. -/
def invitationEmailSubject (episode : Episode) : String :=
  "🎙️ You\x27re invited to \"" ++ episode.title ++ "\" Podcast"

/-- Body of the invitation email (the `html` template literal of the
`send-invitation` function); `fmtDate` again stands for the runtime
`Date.toLocaleDateString` (locale `en-US`) rendering of the date. -/
def invitationEmailHtml (fmtDate : String → String) (guestName host url : String)
    (episode : Episode) : String :=
  "\n"
    ++ "        <div style=\"font-family: Arial, sans-serif; max-width: 600px; margin: 0 auto; padding: 20px;\">\n"
    ++ "          <h1 style=\"color: #333; text-align: center;\">🎙️ Podcast Invitation</h1>\n"
    ++ "          \n"
    ++ "          <div style=\"background: #f8f9fa; padding: 20px; border-radius: 8px; margin: 20px 0;\">\n"
    ++ "            <h2 style=\"color: #333; margin-top: 0;\">You\x27re Invited!</h2>\n"
    ++ "            <p>Hi " ++ guestName ++ ",</p>\n"
    ++ "            <p>" ++ host ++ " has invited you to be a guest on their podcast:</p>\n"
    ++ "            \n"
    ++ "            <div style=\"background: white; padding: 15px; border-radius: 6px; margin: 15px 0;\">\n"
    ++ "              <h3 style=\"margin-top: 0; color: #2563eb;\">" ++ episode.title ++ "</h3>\n"
    ++ "              <p style=\"color: #666; margin-bottom: 10px;\">" ++ episode.description ++ "</p>\n"
    ++ "              <p><strong>Date:</strong> " ++ fmtDate episode.date ++ "</p>\n"
    ++ "            </div>\n"
    ++ "\n"
    ++ "            <div style=\"text-align: center; margin: 30px 0;\">\n"
    ++ "              <a href=\"" ++ url ++ "\" \n"
    ++ "                 style=\"background: #2563eb; color: white; padding: 12px 24px; text-decoration: none; border-radius: 6px; display: inline-block;\">\n"
    ++ "                Choose Your Time Slot\n"
    ++ "              </a>\n"
    ++ "            </div>\n"
    ++ "\n"
    ++ "            <p style=\"color: #666; font-size: 14px;\">\n"
    ++ "              Click the button above to view available time slots and confirm your participation.\n"
    ++ "              If you have any questions, feel free to reply to this email.\n"
    ++ "            </p>\n"
    ++ "          </div>\n"
    ++ "\n"
    ++ "          <div style=\"text-align: center; color: #999; font-size: 12px; margin-top: 30px;\">\n"
    ++ "            <p>This invitation was sent via Podcast Booking System</p>\n"
    ++ "          </div>\n"
    ++ "        </div>\n"
    ++ "      "

/-- `JSON.stringify({ success: true, guestId: guest.id, message: "Invitation sent successfully" })`. -/
def jsonInviteSuccessBody (guestId : String) : String :=
  "\x7b\"success\":true,\"guestId\":\"" ++ guestId
    ++ "\",\"message\":\"Invitation sent successfully\"\x7d"

/-- The `send-invitation` edge function (the second document embedded in
`src/components/ui/time-picker.tsx`), for one well-formed invocation
body, as a pure transformer of the store.  Control flow of the source:
look up the episode with `.single()` (a miss throws `Episode not found`,
which the catch turns into a JSON 500, before any row is created); read
the host profile best-effort; insert the guest row with status
`pending`; build the booking URL and the email; call
`resend.emails.send`.  The resend v2 client resolves with an in-band
`(data, error)` pair and does not throw on a provider failure, so the
send outcome never reaches the catch: the function logs the resolved
value and answers 200 success either way.  The third component is the
payload handed to the provider together with that in-band outcome
(`emailOk`); it is `none` when the function failed before sending. -/
def sendInvitationFn (fmtDate : String → String) (db : DB)
    (episodeId guestName guestEmail newId : String) (emailOk : Bool) :
    Response × DB × Option (Email × Bool) :=
  match selectSingleEpisode db.episodes episodeId with
  | none =>
    ({ status := 500, body := some (jsonErrorBody "Episode not found")
       contentType := some "application/json" }, db, none)
  | some episode =>
    let profile := selectSingleProfile db.profiles episode.user_id
    let guest : Guest :=
      { id := newId, episode_id := episodeId, name := guestName,
        email := guestEmail, status := "pending",
        selected_time_slot := none, rejection_note := none }
    let db1 : DB := { db with guests := db.guests ++ [guest] }
    let email : Email :=
      { sender := "Podcast Booking <hello@lovable.dev>"
        recipients := [guestEmail]
        subject := invitationEmailSubject episode
        html := invitationEmailHtml fmtDate guestName (hostName profile)
          (bookingUrl newId) episode }
    ({ status := 200, body := some (jsonInviteSuccessBody newId)
       contentType := some "application/json" }, db1, some (email, emailOk))

/-- Sequentialisation of the dialog batch: one `send-invitation`
invocation per job, threading the store, collecting each invocation
response.  A job is the `(name, email)` pair of the guest together with
the id the store generates for its row and the email-provider
outcome. -/
def runInvites (fmtDate : String → String) (db : DB) (episodeId : String) :
    List ((String × String) × String × Bool) → DB × List Response
  | [] => (db, [])
  | ((nm, em), nid, ok) :: rest =>
    let r1 := sendInvitationFn fmtDate db episodeId nm em nid ok
    let r2 := runInvites fmtDate r1.2.1 episodeId rest
    (r2.1, r1.1 :: r2.2)

/-- The dialog function `sendInvitations`
(`src/components/dashboard/CreateEpisodeDialog.tsx`, lines 141 to 162):
one `supabase.functions.invoke(send-invitation)` per guest
(`guests.map(...)`), awaited together with `Promise.all`.  The
supabase-js v2 client resolves every `invoke` with an in-band
`(data, error)` pair and never rejects, so `Promise.all` always
resolves and the catch that shows the partial-failure warning toast is
unreachable: the second component of the result, whether that toast
was shown, is constantly `false`.  The concurrent dispatch is
sequentialised; the per-guest inserts touch distinct fresh rows, so
the order is immaterial. -/
def sendInvitations (fmtDate : String → String) (db : DB) (episodeId : String)
    (guests : List (String × String)) (newIds : List String)
    (emailOks : List Bool) : DB × Bool :=
  let r := runInvites fmtDate db episodeId (guests.zip (newIds.zip emailOks))
  (r.1, false)

/-- Row validity the `episode_guests` schema imposes beyond column
types: the `episode_id` foreign key must resolve.  No declared
constraint mentions `status` (the column is `TEXT DEFAULT pending`,
with no CHECK clause and no enum type). -/
def guestRowSchemaOk (db : DB) (g : Guest) : Bool :=
  db.episodes.any (fun e => e.id == g.episode_id)

/-- The guest row one `send-invitation` invocation inserts for its
job. -/
def inviteRow (episodeId : String) (job : (String × String) × String × Bool) : Guest :=
  { id := job.2.1
    episode_id := episodeId
    name := job.1.1
    email := job.1.2
    status := "pending"
    selected_time_slot := none
    rejection_note := none }

/-- Concrete date formatter for the witness evaluations (the theorems
are parametric in the formatter). -/
def fmtId : String → String := fun s => s

/-- Concrete pending guest fixture. -/
def exGuest : Guest :=
  { id := "abc"
    episode_id := "ep1"
    name := "Jane"
    email := "jane@x.com"
    status := "pending"
    selected_time_slot := none
    rejection_note := none }

/-- Concrete episode fixture owned by host `u1`. -/
def exEpisode : Episode :=
  { id := "ep1"
    user_id := "u1"
    title := "AI Future"
    description := "A conversation about what comes next"
    date := "2025-09-01"
    time_slots := ["10:00 - 11:00", "14:00 - 15:00"] }

/-- Store fixture holding the pending guest. -/
def exDb : DB :=
  { episodes := [exEpisode], guests := [exGuest], profiles := [] }

/-- Guest fixture that has already confirmed (for the re-transition
witness). -/
def exGuestDone : Guest :=
  { exGuest with id := "g2", status := "confirmed",
                 selected_time_slot := some "10:00 - 11:00" }

/-- Store fixture holding the already-confirmed guest. -/
def exDb2 : DB :=
  { episodes := [exEpisode], guests := [exGuestDone], profiles := [] }

/-- Second episode fixture, dated earlier than `exEpisode`. -/
def exEpisodeB : Episode :=
  { id := "ep2"
    user_id := "u1"
    title := "Origins"
    description := "Looking back at the beginning"
    date := "2025-08-30"
    time_slots := ["09:00 - 10:00"] }

/-- Store fixture with two episodes listed out of date order. -/
def exDb3 : DB :=
  { episodes := [exEpisode, exEpisodeB], guests := [exGuest], profiles := [] }

/-- The annotated form of `exEpisodeB` (no guests). -/
def exAnnotB : AnnotatedEpisode :=
  { episode := exEpisodeB
    episode_guests := []
    guest_count := 0
    confirmed_guests := 0
    pending_guests := 0 }

/-- Body of a confirmation `POST` carrying no `selectedSlot`. -/
def bodyC1 : BookingBody :=
  { selectedSlot := none, status := "confirmed", rejectionNote := none }

/-- Request fixture: confirmation `POST` without a slot. -/
def reqC1 : Request :=
  { method := "POST"
    pathname := "/guest-booking/abc"
    body := Except.ok bodyC1 }

/-- Body of a decline `POST` without a note. -/
def bodyC2 : BookingBody :=
  { selectedSlot := none, status := "declined", rejectionNote := none }

/-- Request fixture: decline `POST` aimed at the already-confirmed
guest. -/
def reqC2 : Request :=
  { method := "POST"
    pathname := "/guest-booking/g2"
    body := Except.ok bodyC2 }

/-- Body of a decline `POST` that nevertheless carries a slot. -/
def bodyC3 : BookingBody :=
  { selectedSlot := some "10:00 - 11:00", status := "declined",
    rejectionNote := none }

/-- Request fixture: decline `POST` carrying a slot. -/
def reqC3 : Request :=
  { method := "POST"
    pathname := "/guest-booking/abc"
    body := Except.ok bodyC3 }

/-- Request fixture: `POST` whose JSON body fails to parse. -/
def reqC4bad : Request :=
  { method := "POST"
    pathname := "/guest-booking/abc"
    body := Except.error "Unexpected end of JSON input" }

/-- Request fixture: `POST` whose path ends in a slash, so the last
path segment is empty. -/
def reqC4noid : Request :=
  { method := "POST"
    pathname := "/guest-booking/"
    body := Except.error "ignored" }

/-- Request fixture: `GET` for a guest id that resolves to no row. -/
def reqC4get : Request :=
  { method := "GET"
    pathname := "/guest-booking/not-a-uuid"
    body := Except.ok bodyC1 }

/-- Request fixture: `GET` for an unknown guest id. -/
def reqC5 : Request :=
  { method := "GET"
    pathname := "/guest-booking/zzz"
    body := Except.ok bodyC1 }

/-- Request fixture: `GET` for the existing pending guest. -/
def reqC8 : Request :=
  { method := "GET"
    pathname := "/guest-booking/abc"
    body := Except.ok bodyC1 }

/-- Body of a `POST` carrying a status outside the documented
enumeration. -/
def bodyC10 : BookingBody :=
  { selectedSlot := none, status := "on-hold", rejectionNote := none }

/-- Request fixture: `POST` with the out-of-enumeration status. -/
def reqC10 : Request :=
  { method := "POST"
    pathname := "/guest-booking/abc"
    body := Except.ok bodyC10 }

/-- Guest list fixture for a two-guest invitation batch. -/
def exBatchGuests : List (String × String) :=
  [("Jane", "jane@x.com"), ("Bob", "bob@x.com")]

/-- Generated ids for the two-guest batch. -/
def exBatchIds : List String := ["g10", "g11"]

/-- Email outcomes for the two-guest batch: the second send fails. -/
def exBatchOks : List Bool := [true, false]

theorem handler_post_ok (fmtDate : String → String) (db : DB) (req : Request)
    (b : BookingBody) (hm : req.method = "POST") (hb : req.body = Except.ok b)
    (hid : lastSegment req.pathname ≠ "") :
    handler fmtDate db req =
      ({ body := some jsonSuccessBody, contentType := some "application/json" },
       { db with guests := updateGuests db.guests (lastSegment req.pathname) (mkUpdateData b) }) := by
  unfold handler
  rw [hm, hb]
  simp [beq_eq_false_iff_ne.mpr hid]

theorem handler_get_db_eq (fmtDate : String → String) (db : DB) (req : Request)
    (hm : req.method = "GET") :
    (handler fmtDate db req).2 = db := by
  unfold handler
  rw [hm]
  simp only [String.reduceBEq, Bool.false_eq_true, if_false, reduceIte]
  split
  · rfl
  · split
    · rfl
    · split <;> rfl

theorem handler_get_notfound (fmtDate : String → String) (db : DB) (req : Request)
    (hm : req.method = "GET") (hid : lastSegment req.pathname ≠ "")
    (hmiss : selectSingle db.guests (lastSegment req.pathname) = none) :
    handler fmtDate db req =
      ({ body := some createNotFoundPage, contentType := some "text/html" }, db) := by
  unfold handler
  rw [hm]
  simp [beq_eq_false_iff_ne.mpr hid, hmiss]

theorem updateGuests_mem (gs : List Guest) (gid : String) (u : UpdateData)
    (g : Guest) (hg : g ∈ gs) (hid : g.id = gid) :
    applyUpdate u g ∈ updateGuests gs gid u := by
  unfold updateGuests
  exact List.mem_map.mpr ⟨g, hg, by simp [hid]⟩

theorem updateGuests_eq_of_mem_id (gs : List Guest) (gid : String) (u : UpdateData)
    (g' : Guest) (hg' : g' ∈ updateGuests gs gid u) (hid : g'.id = gid) :
    g'.status = u.status ∧ g'.selected_time_slot = u.selected_time_slot := by
  unfold updateGuests at hg'
  obtain ⟨g, hg, heq⟩ := List.mem_map.mp hg'
  by_cases h : (g.id == gid) = true
  · rw [if_pos h] at heq
    subst heq
    exact ⟨rfl, rfl⟩
  · rw [if_neg h] at heq
    subst heq
    exact absurd (beq_iff_eq.mpr hid) h

theorem charListLe_total (as bs : List Char) :
    (charListLe as bs || charListLe bs as) = true := by
  induction as generalizing bs with
  | nil => simp [charListLe]
  | cons a as ih =>
    cases bs with
    | nil => simp [charListLe]
    | cons b bs =>
      by_cases h1 : a < b
      · simp [charListLe, h1]
      · by_cases h2 : b < a
        · simp [charListLe, h1, h2]
        · simp [charListLe, h1, h2, ih bs]

theorem charListLe_trans (as bs cs : List Char)
    (h1 : charListLe as bs = true) (h2 : charListLe bs cs = true) :
    charListLe as cs = true := by
  induction as generalizing bs cs with
  | nil => simp [charListLe]
  | cons a as ih =>
    cases bs with
    | nil => simp [charListLe] at h1
    | cons b bs =>
      cases cs with
      | nil => simp [charListLe] at h2
      | cons c cs =>
        by_cases hab : a < b
        · by_cases hcb : c < b
          · simp [charListLe, asymm hcb, hcb] at h2
          · have hac : a < c := by
              rcases lt_or_eq_of_le (not_lt.mp hcb) with h | h
              · exact lt_trans hab h
              · exact h ▸ hab
            simp [charListLe, hac]
        · by_cases hba : b < a
          · simp [charListLe, hab, hba] at h1
          · have hh : a = b := le_antisymm (not_lt.mp hba) (not_lt.mp hab)
            subst hh
            simp only [charListLe, lt_irrefl, if_false] at h1
            by_cases hac : a < c
            · simp [charListLe, hac]
            · by_cases hca : c < a
              · simp [charListLe, hac, hca] at h2
              · have hh2 : a = c := le_antisymm (not_lt.mp hca) (not_lt.mp hac)
                subst hh2
                simp only [charListLe, lt_irrefl, if_false] at h2 ⊢
                exact ih bs cs h1 h2

theorem dateLe_total (a b : String) : (dateLe a b || dateLe b a) = true :=
  charListLe_total a.data b.data

theorem dateLe_trans (a b c : String) (h1 : dateLe a b = true)
    (h2 : dateLe b c = true) : dateLe a c = true :=
  charListLe_trans a.data b.data c.data h1 h2

theorem runInvites_spec (fmtDate : String → String) (episodeId : String)
    (jobs : List ((String × String) × String × Bool)) (db : DB)
    (hep : (selectSingleEpisode db.episodes episodeId).isSome = true) :
    (runInvites fmtDate db episodeId jobs).1.episodes = db.episodes ∧
    (runInvites fmtDate db episodeId jobs).1.guests =
      db.guests ++ jobs.map (inviteRow episodeId) := by
  induction jobs generalizing db with
  | nil => simp [runInvites]
  | cons j rest ih =>
    obtain ⟨⟨nm, em⟩, nid, ok⟩ := j
    obtain ⟨e, he⟩ := Option.isSome_iff_exists.mp hep
    simp only [runInvites, sendInvitationFn, he]
    have hep1 : (selectSingleEpisode
        (({ db with guests := db.guests ++
          [inviteRow episodeId ((nm, em), nid, ok)] } : DB)).episodes
            episodeId).isSome = true := hep
    obtain ⟨ha, hb⟩ := ih _ hep1
    simp only [inviteRow] at ha hb
    constructor
    · rw [ha]
    · rw [hb]
      simp [inviteRow]

theorem map_proj_of_section {α β : Type} (f : α → β) (p : β → α)
    (hp : ∀ e, p (f e) = e) (l : List α) : (l.map f).map p = l := by
  induction l with
  | nil => rfl
  | cons x xs ih => simp [hp, ih]

/-- C1, counterexample: a `POST` whose body is `status confirmed` with
no `selectedSlot` is nevertheless applied: the pending guest ends up
stored as `confirmed` (with a NULL slot) and the handler answers 200,
so the handler does not demand a slot as a precondition of the
confirmed transition. -/
theorem c1_counterexample :
    (handler fmtId exDb reqC1).1.status = 200 ∧
    (handler fmtId exDb reqC1).2.guests =
      [{ exGuest with status := "confirmed", selected_time_slot := none }] :=
  ⟨by decide, by decide⟩

/-- C1, amended: the handler imposes no server-side slot precondition;
a confirmation `POST` without a `selectedSlot` is applied, leaving the
matching rows with status `confirmed` and a NULL `selected_time_slot`,
and the handler responds 200. -/
theorem c1_confirmed_without_slot (fmtDate : String → String) (db : DB)
    (req : Request) (b : BookingBody) (hm : req.method = "POST")
    (hb : req.body = Except.ok b) (hid : lastSegment req.pathname ≠ "")
    (hs : b.status = "confirmed") (hslot : b.selectedSlot = none) :
    (handler fmtDate db req).1.status = 200 ∧
    ∀ g' ∈ (handler fmtDate db req).2.guests,
      g'.id = lastSegment req.pathname →
      g'.status = "confirmed" ∧ g'.selected_time_slot = none := by
  have h := handler_post_ok fmtDate db req b hm hb hid
  constructor
  · rw [h]
  · intro g' hg' hgid
    rw [h] at hg'
    have h2 := updateGuests_eq_of_mem_id _ _ _ g' hg' hgid
    exact ⟨h2.1.trans hs, h2.2.trans hslot⟩

/-- C1 witness: the amended statement evaluated on the concrete
fixture. -/
theorem c1_confirmed_without_slot_witness :
    (handler fmtId exDb reqC1).1.status = 200 ∧
    (({ exGuest with status := "confirmed", selected_time_slot := none } : Guest).status = "confirmed" ∧
     ({ exGuest with status := "confirmed", selected_time_slot := none } : Guest).selected_time_slot = none) := by
  have h := c1_confirmed_without_slot fmtId exDb reqC1 bodyC1 rfl rfl (by decide) rfl rfl
  exact ⟨h.1, h.2 _ (by decide) (by decide)⟩

/-- C2: a well-formed `POST` is applied unconditionally: whatever the
current status of a stored guest row matching the posted id, the row
is rewritten with the submitted status, and the handler answers with
the success JSON. -/
theorem c2_unconditional_update (fmtDate : String → String) (db : DB)
    (req : Request) (b : BookingBody) (hm : req.method = "POST")
    (hb : req.body = Except.ok b) (hid : lastSegment req.pathname ≠ "") :
    (handler fmtDate db req).1 =
      { status := 200, body := some jsonSuccessBody,
        contentType := some "application/json" } ∧
    ∀ g ∈ db.guests, g.id = lastSegment req.pathname →
      applyUpdate (mkUpdateData b) g ∈ (handler fmtDate db req).2.guests ∧
      (applyUpdate (mkUpdateData b) g).status = b.status := by
  have h := handler_post_ok fmtDate db req b hm hb hid
  constructor
  · rw [h]
  · intro g hg hgid
    rw [h]
    exact ⟨updateGuests_mem _ _ _ g hg hgid, rfl⟩

/-- C2 witness: a guest already stored as `confirmed` is re-transitioned
to `declined` by a later `POST`. -/
theorem c2_unconditional_update_witness :
    (handler fmtId exDb2 reqC2).1 =
      { status := 200, body := some jsonSuccessBody,
        contentType := some "application/json" } ∧
    applyUpdate (mkUpdateData bodyC2) exGuestDone ∈ (handler fmtId exDb2 reqC2).2.guests ∧
    (applyUpdate (mkUpdateData bodyC2) exGuestDone).status = "declined" := by
  have h := c2_unconditional_update fmtId exDb2 reqC2 bodyC2 rfl rfl (by decide)
  exact ⟨h.1, (h.2 exGuestDone (by decide) rfl).1, (h.2 exGuestDone (by decide) rfl).2⟩

/-- C3, counterexample: a `POST` with status `declined` that carries a
`selectedSlot` stores that slot, so a slot value is not stored only on
confirmed transitions. -/
theorem c3_counterexample :
    (handler fmtId exDb reqC3).2.guests =
      [{ exGuest with status := "declined", selected_time_slot := some "10:00 - 11:00" }] := by
  decide

/-- C3, amended: on every well-formed `POST`, whatever the submitted
status, `selected_time_slot` is overwritten with the submitted
`selectedSlot` (NULL when absent). -/
theorem c3_slot_overwritten_every_post (fmtDate : String → String) (db : DB)
    (req : Request) (b : BookingBody) (hm : req.method = "POST")
    (hb : req.body = Except.ok b) (hid : lastSegment req.pathname ≠ "") :
    ∀ g' ∈ (handler fmtDate db req).2.guests,
      g'.id = lastSegment req.pathname →
      g'.selected_time_slot = b.selectedSlot := by
  intro g' hg' hgid
  rw [handler_post_ok fmtDate db req b hm hb hid] at hg'
  exact (updateGuests_eq_of_mem_id _ _ _ g' hg' hgid).2

/-- C3 witness: the amended statement evaluated on the decline-with-slot
fixture. -/
theorem c3_slot_overwritten_every_post_witness :
    ({ exGuest with status := "declined", selected_time_slot := some "10:00 - 11:00" } : Guest).selected_time_slot =
      some "10:00 - 11:00" := by
  have h := c3_slot_overwritten_every_post fmtId exDb reqC3 bodyC3 rfl rfl (by decide)
  exact h _ (by decide) (by decide)

/-- C4, counterexample: a `POST` whose body fails to parse is answered
with HTTP 500 (the parse exception reaches the catch-all), not with the
BadRequest 400 the claim asserts for malformed input. -/
theorem c4_counterexample :
    (handler fmtId exDb reqC4bad).1.status = 500 ∧
    ¬ (handler fmtId exDb reqC4bad).1.status = 400 :=
  ⟨by decide, by decide⟩

/-- C4, amended: only a missing guest id (empty last path segment)
yields 400; a `POST` whose body fails to parse yields the JSON 500; a
non-empty but unresolvable id on `GET` is served the not-found page
with status 200. -/
theorem c4_error_signals (fmtDate : String → String) (db : DB) (req : Request) :
    (req.method ≠ "OPTIONS" → lastSegment req.pathname = "" →
       (handler fmtDate db req).1.status = 400) ∧
    (∀ msg, req.method = "POST" → lastSegment req.pathname ≠ "" →
       req.body = Except.error msg →
       (handler fmtDate db req).1 =
         { status := 500, body := some (jsonErrorBody msg),
           contentType := some "application/json" }) ∧
    (req.method = "GET" → lastSegment req.pathname ≠ "" →
       selectSingle db.guests (lastSegment req.pathname) = none →
       (handler fmtDate db req).1.status = 200) := by
  refine ⟨?_, ?_, ?_⟩
  · intro h1 h2
    unfold handler
    simp [beq_eq_false_iff_ne.mpr h1, h2]
  · intro msg hm hid hb
    unfold handler
    rw [hm, hb]
    simp [beq_eq_false_iff_ne.mpr hid]
  · intro hm hid hmiss
    rw [handler_get_notfound fmtDate db req hm hid hmiss]

/-- C4 witness: the three amended signals on concrete requests. -/
theorem c4_error_signals_witness :
    (handler fmtId exDb reqC4noid).1.status = 400 ∧
    (handler fmtId exDb reqC4bad).1 =
      { status := 500,
        body := some (jsonErrorBody "Unexpected end of JSON input"),
        contentType := some "application/json" } ∧
    (handler fmtId exDb reqC4get).1.status = 200 := by
  refine ⟨?_, ?_, ?_⟩
  · exact (c4_error_signals fmtId exDb reqC4noid).1 (by decide) (by decide)
  · exact (c4_error_signals fmtId exDb reqC4bad).2.1
      "Unexpected end of JSON input" rfl (by decide) rfl
  · exact (c4_error_signals fmtId exDb reqC4get).2.2 rfl (by decide) (by decide)

/-- C5: a `GET` for an unresolvable guest id is answered with the
generic not-found page and HTTP status 200 (the runtime default, no
status is passed), not 404. -/
theorem c5_notfound_is_200 (fmtDate : String → String) (db : DB) (req : Request)
    (hm : req.method = "GET") (hid : lastSegment req.pathname ≠ "")
    (hmiss : selectSingle db.guests (lastSegment req.pathname) = none) :
    (handler fmtDate db req).1 =
      { status := 200, body := some createNotFoundPage,
        contentType := some "text/html" } ∧
    (handler fmtDate db req).1.status ≠ 404 := by
  have h := handler_get_notfound fmtDate db req hm hid hmiss
  constructor
  · rw [h]
  · rw [h]
    show (200 : Nat) ≠ 404
    decide

/-- C5 witness: the not-found response on the concrete fixture. -/
theorem c5_notfound_is_200_witness :
    (handler fmtId exDb reqC5).1 =
      { status := 200, body := some createNotFoundPage,
        contentType := some "text/html" } ∧
    (handler fmtId exDb reqC5).1.status ≠ 404 :=
  c5_notfound_is_200 fmtId exDb reqC5 rfl (by decide) (by decide)

/-- C6, counterexample: scenario F, a two-guest batch whose second
email send fails.  Both guest rows nevertheless persist with status
`pending`, the invocation whose email failed is still answered 200
success (resend reports the failure in-band and the function returns
success regardless), and the warning flag is `false`: the host is not
shown a partial-failure warning, refuting the claim that a failed
invitation surfaces one. -/
theorem c6_counterexample :
    (sendInvitations fmtId exDb "ep1" exBatchGuests exBatchIds exBatchOks).1.guests =
      exDb.guests ++ (exBatchGuests.zip (exBatchIds.zip exBatchOks)).map (inviteRow "ep1") ∧
    (sendInvitationFn fmtId exDb "ep1" "Bob" "bob@x.com" "g11" false).1.status = 200 ∧
    (sendInvitations fmtId exDb "ep1" exBatchGuests exBatchIds exBatchOks).2 = false :=
  ⟨by decide, by decide, rfl⟩

/-- C6, amended: every invitation of a batch is dispatched
independently: each creates its guest row with status `pending`
whatever the other email outcomes, and no failure blocks or rolls back
another.  An email-provider failure, however, is reported in-band: the
`send-invitation` function answers 200 success whatever the send
outcome, `functions.invoke` never rejects, and so the partial-failure
warning toast of the dialog is unreachable and never shown. -/
theorem c6_batch_invitations (fmtDate : String → String) (db : DB)
    (episodeId : String) (guests : List (String × String))
    (newIds : List String) (emailOks : List Bool)
    (hep : (selectSingleEpisode db.episodes episodeId).isSome = true) :
    (sendInvitations fmtDate db episodeId guests newIds emailOks).1.guests =
      db.guests ++ (guests.zip (newIds.zip emailOks)).map (inviteRow episodeId) ∧
    (∀ (nm em nid : String) (ok : Bool),
      (sendInvitationFn fmtDate db episodeId nm em nid ok).1.status = 200) ∧
    (sendInvitations fmtDate db episodeId guests newIds emailOks).2 = false := by
  obtain ⟨-, hg⟩ :=
    runInvites_spec fmtDate episodeId (guests.zip (newIds.zip emailOks)) db hep
  refine ⟨hg, ?_, rfl⟩
  intro nm em nid ok
  obtain ⟨e, he⟩ := Option.isSome_iff_exists.mp hep
  simp [sendInvitationFn, he]

/-- C6 witness: the amended statement on the concrete two-guest batch,
with the single-invocation conclusion instantiated at the first
guest. -/
theorem c6_batch_invitations_witness :
    (sendInvitations fmtId exDb "ep1" exBatchGuests exBatchIds exBatchOks).1.guests =
      exDb.guests ++ (exBatchGuests.zip (exBatchIds.zip exBatchOks)).map (inviteRow "ep1") ∧
    (sendInvitationFn fmtId exDb "ep1" "Jane" "jane@x.com" "g10" true).1.status = 200 ∧
    (sendInvitations fmtId exDb "ep1" exBatchGuests exBatchIds exBatchOks).2 = false := by
  have h := c6_batch_invitations fmtId exDb "ep1" exBatchGuests exBatchIds exBatchOks
    (by decide)
  exact ⟨h.1, h.2.1 "Jane" "jane@x.com" "g10" true, h.2.2⟩

/-- C7: the dashboard listing of one owner is, up to the date ordering,
exactly that owner's episodes; it is sorted ascending by date; and the
displayed counts agree with the guest table: all rows of the episode,
those with status `confirmed`, and those with status `pending`. -/
theorem c7_dashboard_aggregation (db : DB) (owner : String) :
    ((fetchEpisodes db owner).map (fun a => a.episode)).Perm
        (db.episodes.filter (fun e => e.user_id == owner)) ∧
    (fetchEpisodes db owner).Pairwise
        (fun a b => dateLe a.episode.date b.episode.date = true) ∧
    ∀ a ∈ fetchEpisodes db owner,
      a.guest_count =
        (db.guests.filter (fun g => g.episode_id == a.episode.id)).length ∧
      a.confirmed_guests = (db.guests.filter
        (fun g => g.status == "confirmed" && g.episode_id == a.episode.id)).length ∧
      a.pending_guests = (db.guests.filter
        (fun g => g.status == "pending" && g.episode_id == a.episode.id)).length := by
  haveI instTot : IsTotal Episode (fun a b => dateLe a.date b.date = true) :=
    ⟨fun a b => by
      have h := dateLe_total a.date b.date
      cases hab : dateLe a.date b.date
      · right
        simpa [hab] using h
      · left
        rfl⟩
  haveI instTr : IsTrans Episode (fun a b => dateLe a.date b.date = true) :=
    ⟨fun a b c ha hb => dateLe_trans a.date b.date c.date ha hb⟩
  refine ⟨?_, ?_, ?_⟩
  · unfold fetchEpisodes
    rw [map_proj_of_section _ (fun a : AnnotatedEpisode => a.episode) (fun _ => rfl)]
    exact List.perm_insertionSort _ _
  · unfold fetchEpisodes
    rw [List.pairwise_map]
    exact List.sorted_insertionSort (fun a b => dateLe a.date b.date = true)
      (db.episodes.filter (fun e => e.user_id == owner))
  · intro a ha
    unfold fetchEpisodes at ha
    obtain ⟨e, he, rfl⟩ := List.mem_map.mp ha
    refine ⟨rfl, ?_, ?_⟩
    · simp [List.filter_filter]
    · simp [List.filter_filter]

/-- C7 witness: the aggregation on a concrete two-episode store. -/
theorem c7_dashboard_aggregation_witness :
    ((fetchEpisodes exDb3 "u1").map (fun a => a.episode)).Perm
        (exDb3.episodes.filter (fun e => e.user_id == "u1")) ∧
    (exAnnotB.guest_count =
        (exDb3.guests.filter (fun g => g.episode_id == exAnnotB.episode.id)).length ∧
     exAnnotB.confirmed_guests = (exDb3.guests.filter
        (fun g => g.status == "confirmed" && g.episode_id == exAnnotB.episode.id)).length ∧
     exAnnotB.pending_guests = (exDb3.guests.filter
        (fun g => g.status == "pending" && g.episode_id == exAnnotB.episode.id)).length) := by
  have h := c7_dashboard_aggregation exDb3 "u1"
  exact ⟨h.1, h.2.2 exAnnotB (by decide)⟩

/-- C8: a `GET` leaves the store untouched, and repeating the same
`GET` without an intervening write returns an identical response (the
rendered page is a pure function of the stored state). -/
theorem c8_get_idempotent (fmtDate : String → String) (db : DB) (req : Request)
    (hm : req.method = "GET") :
    (handler fmtDate db req).2 = db ∧
    (handler fmtDate (handler fmtDate db req).2 req).1 =
      (handler fmtDate db req).1 := by
  have h := handler_get_db_eq fmtDate db req hm
  exact ⟨h, by rw [h]⟩

/-- C8 witness: a repeated `GET` of the pending guest booking page. -/
theorem c8_get_idempotent_witness :
    (handler fmtId exDb reqC8).2 = exDb ∧
    (handler fmtId (handler fmtId exDb reqC8).2 reqC8).1 =
      (handler fmtId exDb reqC8).1 :=
  c8_get_idempotent fmtId exDb reqC8 rfl

/-- C9: `rejection_note` enters the update only on a declined
submission carrying a truthy note, every other `POST` leaves the
stored note untouched, while `selected_time_slot` and `status` are
overwritten on every `POST`; consequently a guest who declines with a
note and later confirms keeps the stale note beside status
`confirmed`. -/
theorem c9_rejection_note_frame (b : BookingBody) (g : Guest)
    (note slot : String) (hnote : note ≠ "") :
    ((applyUpdate (mkUpdateData b) g).rejection_note =
       if b.status == "declined" && strTruthy b.rejectionNote then b.rejectionNote
       else g.rejection_note) ∧
    (applyUpdate (mkUpdateData b) g).selected_time_slot = b.selectedSlot ∧
    (applyUpdate (mkUpdateData b) g).status = b.status ∧
    ((applyUpdate (mkUpdateData { selectedSlot := some slot, status := "confirmed", rejectionNote := none })
        (applyUpdate (mkUpdateData { selectedSlot := none, status := "declined", rejectionNote := some note }) g)).status = "confirmed" ∧
     (applyUpdate (mkUpdateData { selectedSlot := some slot, status := "confirmed", rejectionNote := none })
        (applyUpdate (mkUpdateData { selectedSlot := none, status := "declined", rejectionNote := some note }) g)).rejection_note = some note ∧
     (applyUpdate (mkUpdateData { selectedSlot := some slot, status := "confirmed", rejectionNote := none })
        (applyUpdate (mkUpdateData { selectedSlot := none, status := "declined", rejectionNote := some note }) g)).selected_time_slot = some slot) := by
  refine ⟨?_, rfl, rfl, rfl, ?_, rfl⟩
  · cases h : (b.status == "declined" && strTruthy b.rejectionNote) with
    | false => simp [mkUpdateData, applyUpdate, h]
    | true =>
      cases hb : b.rejectionNote with
      | some n =>
        rw [hb] at h
        simp only [Bool.and_eq_true, beq_iff_eq] at h
        simp [mkUpdateData, applyUpdate, hb, h.1, h.2]
      | none =>
        rw [hb] at h
        simp [strTruthy] at h
  · simp [mkUpdateData, applyUpdate, strTruthy, hnote]

/-- C9 witness: decline with the note `conflict`, then confirm with a
slot; the stale note survives beside the confirmed status. -/
theorem c9_rejection_note_frame_witness :
    (applyUpdate (mkUpdateData { selectedSlot := some "10:00 - 11:00", status := "confirmed", rejectionNote := none })
        (applyUpdate (mkUpdateData { selectedSlot := none, status := "declined", rejectionNote := some "conflict" }) exGuest)).status = "confirmed" ∧
    (applyUpdate (mkUpdateData { selectedSlot := some "10:00 - 11:00", status := "confirmed", rejectionNote := none })
        (applyUpdate (mkUpdateData { selectedSlot := none, status := "declined", rejectionNote := some "conflict" }) exGuest)).rejection_note = some "conflict" ∧
    (applyUpdate (mkUpdateData { selectedSlot := some "10:00 - 11:00", status := "confirmed", rejectionNote := none })
        (applyUpdate (mkUpdateData { selectedSlot := none, status := "declined", rejectionNote := some "conflict" }) exGuest)).selected_time_slot = some "10:00 - 11:00" :=
  (c9_rejection_note_frame bodyC1 exGuest "conflict" "10:00 - 11:00" (by decide)).2.2.2

/-- C10: a successful `POST` stores the submitted status string
verbatim in the matching rows, and the `episode_guests` schema places
no constraint on that string: any status value keeps a row
schema-valid. -/
theorem c10_status_verbatim (fmtDate : String → String) (db : DB)
    (req : Request) (b : BookingBody) (hm : req.method = "POST")
    (hb : req.body = Except.ok b) (hid : lastSegment req.pathname ≠ "") :
    (∀ g' ∈ (handler fmtDate db req).2.guests,
       g'.id = lastSegment req.pathname → g'.status = b.status) ∧
    (∀ (g : Guest) (s : String), guestRowSchemaOk db g = true →
       guestRowSchemaOk db { g with status := s } = true) := by
  constructor
  · intro g' hg' hgid
    rw [handler_post_ok fmtDate db req b hm hb hid] at hg'
    exact (updateGuests_eq_of_mem_id _ _ _ g' hg' hgid).1
  · intro g s h
    exact h

/-- C10 witness: the out-of-enumeration status `on-hold` is written
verbatim and is accepted by the schema. -/
theorem c10_status_verbatim_witness :
    ({ exGuest with status := "on-hold", selected_time_slot := none } : Guest).status = "on-hold" ∧
    guestRowSchemaOk exDb { exGuest with status := "on-hold" } = true := by
  have h := c10_status_verbatim fmtId exDb reqC10 bodyC10 rfl rfl (by decide)
  exact ⟨h.1 _ (by decide) (by decide), h.2 exGuest "on-hold" (by decide)⟩

end EpisodeFlow
